import Mathlib

/-!
Verification of `validate_architecture.py` (Multi-Agent-Contract-Enforcer).

The program is a single-pass scanner over a parsed YAML/JSON document: it
flattens the document to text, matches a fixed registry of dysfunction
patterns by substring search, counts stages and agents, checks for
contract/test-gate indicator terms, and exits 0/1 depending on the
severity of the findings.

The embedding below mirrors the Python source function by function:
  - `Value` is the generic nested value produced by the JSON/YAML parsers
    (numbers modelled as integers; all registry keywords and indicator
    terms are ASCII, so `lowerStr` models `str.lower` on the relevant
    fragment).
  - `flatten_to_text`, `check_keywords`, `count_stages`, `count_agents`,
    `validate` and `main` correspond to the functions of the same names.
  - Python dicts are modelled as association lists (`List (String × Value)`);
    `dictGet` is `dict.get(key, default)` (first matching key).
  - Calling `.get` on a non-dict raises `AttributeError`; fallible code is
    in `Except PyError`.
  - `main` is modelled over an abstract `RunInput` recording the CLI
    argument, file existence, the file suffix, YAML-library availability,
    and the outcomes of the two external parsers on the file content
    (spec §6 treats the parsers as external collaborators).
-/

/-- A generic nested document value as produced by parsing JSON or YAML:
mappings, sequences, strings, integers, booleans, null. -/
inductive Value where
  | str (s : String)
  | num (n : Int)
  | bool (b : Bool)
  | null
  | arr (xs : List Value)
  | obj (kvs : List (String × Value))

/-- Exceptions the Python code can raise and leave uncaught. -/
inductive PyError where
  | attributeError
  | jsonDecodeError
  | yamlError
  | valueError
deriving DecidableEq, Repr

/-- ASCII lowercasing of a character, the fragment of Python `str.lower`
relevant here (every registry keyword and indicator term is ASCII). -/
def lowerChar (c : Char) : Char :=
  if 65 ≤ c.toNat ∧ c.toNat ≤ 90 then Char.ofNat (c.toNat + 32) else c

/-- ASCII lowercasing of a string (`str.lower` on the ASCII fragment). -/
def lowerStr (s : String) : String :=
  ⟨s.data.map lowerChar⟩

/-- Python `needle in haystack` on lists of characters: `needle` occurs
contiguously somewhere in `haystack`. -/
def isPrefixOfChars : List Char → List Char → Bool
  | [], _ => true
  | _ :: _, [] => false
  | a :: as, b :: bs => a == b && isPrefixOfChars as bs

/-- Substring occurrence: some suffix of the haystack starts with the needle. -/
def containsSub : List Char → List Char → Bool
  | [], needle => isPrefixOfChars needle []
  | h :: t, needle => isPrefixOfChars needle (h :: t) || containsSub t needle

/-- Python `needle in haystack` for strings. -/
def strContains (haystack needle : String) : Bool :=
  containsSub haystack.data needle.data

/-- Python `sep.join parts`. -/
def joinWith (sep : String) : List String → String
  | [] => ""
  | [s] => s
  | s :: rest => s ++ sep ++ joinWith sep rest

/-- A dysfunction pattern record of the registry: trigger keywords,
severity, description, suggested fix. -/
structure Pattern where
  keywords : List String
  severity : String
  description : String
  fix : String
deriving DecidableEq, Repr

/-- The `review_chain` registry entry. -/
def reviewChainPattern : Pattern :=
  { keywords := ["reviewer", "review_agent", "code_review", "approval_gate",
                 "quality_check", "evaluator", "assessor", "judge_agent"],
    severity := "HIGH",
    description := "Subjective review agents create Crawford-Sobel degradation",
    fix := "Replace with mechanical test verification against contracts" }

/-- The `escalation_hierarchy` registry entry. -/
def escalationHierarchyPattern : Pattern :=
  { keywords := ["escalate", "arbiter", "escalation", "override",
                 "force_approve", "supervisor", "manager_agent"],
    severity := "HIGH",
    description := "Escalation hierarchies recreate middle management",
    fix := "Remove escalation layers; use contract tests as the sole arbiter" }

/-- The `confidence_scoring` registry entry. -/
def confidenceScoringPattern : Pattern :=
  { keywords := ["confidence_score", "confidence_threshold", "quality_score",
                 "rating", "score_gate", "confidence_gate"],
    severity := "MEDIUM",
    description := "Confidence scores are Goodhart-vulnerable proxies",
    fix := "Replace with binary pass/fail mechanical gates (tests pass or not)" }

/-- The `consensus_protocol` registry entry. -/
def consensusProtocolPattern : Pattern :=
  { keywords := ["vote", "consensus", "debate", "deliberation",
                 "majority", "agreement", "negotiate"],
    severity := "MEDIUM",
    description := "Agent consensus shifts correct answers to incorrect more often than reverse",
    fix := "Define truth via contracts; verify via tests; no voting" }

/-- The `excessive_pipeline` registry entry (empty keyword list: checked by
stage count). -/
def excessivePipelinePattern : Pattern :=
  { keywords := [],
    severity := "HIGH",
    description := "Pipelines with >4 stages spend more on coordination than production",
    fix := "Reduce to: decompose -> contract+test -> implement -> integrate" }

/-- The `agent_evaluates_agent` registry entry. -/
def agentEvaluatesAgentPattern : Pattern :=
  { keywords := ["review_output", "check_work", "validate_code",
                 "assess_quality", "grade_output", "feedback_loop"],
    severity := "HIGH",
    description := "Agents evaluating other agents' output is the core dysfunction",
    fix := "Only tests evaluate output; agents only produce output" }

/-- The fixed, ordered dysfunction-pattern registry `DYSFUNCTION_PATTERNS`
(Python dicts preserve insertion order). -/
def DYSFUNCTION_PATTERNS : List (String × Pattern) :=
  [("review_chain", reviewChainPattern),
   ("escalation_hierarchy", escalationHierarchyPattern),
   ("confidence_scoring", confidenceScoringPattern),
   ("consensus_protocol", consensusProtocolPattern),
   ("excessive_pipeline", excessivePipelinePattern),
   ("agent_evaluates_agent", agentEvaluatesAgentPattern)]

/-- `check_keywords(text, keywords)`: the keywords whose lowercase form
occurs as a substring of the lowercased text. -/
def check_keywords (text : String) (keywords : List String) : List String :=
  keywords.filter (fun kw => strContains (lowerStr text) (lowerStr kw))

/-- Python `str(n)` for an integer. -/
def intStr (n : Int) : String :=
  toString n

/-- Python `str` of a scalar: strings are themselves, `True`/`False` for
booleans, `None` for null, decimal form for integers. Sequences and
mappings are handled structurally by `flatten_to_text` before this
fallback applies. -/
def scalarStr : Value → String
  | .str s => s
  | .num n => intStr n
  | .bool b => if b then "True" else "False"
  | .null => "None"
  | .arr _ => ""
  | .obj _ => ""

mutual

/-- `flatten_to_text(obj, depth)`: recursively flatten a nested value to
space-joined searchable text; returns the empty string once `depth > 10`. -/
def flatten_to_text : Value → Nat → String
  | obj, depth =>
    if depth > 10 then ""
    else
      match obj with
      | .str s => s
      | .obj kvs => joinWith " " (flattenPairs kvs depth)
      | .arr xs => joinWith " " (flattenList xs depth)
      | .num n => intStr n
      | .bool b => if b then "True" else "False"
      | .null => "None"

/-- The `parts` list built for a mapping: each key followed by its
recursively flattened value. -/
def flattenPairs : List (String × Value) → Nat → List String
  | [], _ => []
  | (k, v) :: rest, depth => k :: flatten_to_text v (depth + 1) :: flattenPairs rest depth

/-- The parts list built for a sequence: each element's flattened text. -/
def flattenList : List Value → Nat → List String
  | [], _ => []
  | v :: rest, depth => flatten_to_text v (depth + 1) :: flattenList rest depth

end

/-- Python `kvs.get(k, dflt)`: the value of the (first) matching key, else
the default. -/
def dictGet (kvs : List (String × Value)) (k : String) (dflt : Value) : Value :=
  match kvs.find? (fun p => p.1 == k) with
  | some p => p.2
  | none => dflt

/-- The `stages` expression of `count_stages`:
`arch.get("stages", arch.get("pipeline", arch.get("phases", [])))`. -/
def stages_field (kvs : List (String × Value)) : Value :=
  dictGet kvs "stages" (dictGet kvs "pipeline" (dictGet kvs "phases" (.arr [])))

/-- Stage count of a mapping: length of the stages field when it is a
sequence or a mapping, else 0. -/
def stage_count (kvs : List (String × Value)) : Nat :=
  match stages_field kvs with
  | .arr xs => xs.length
  | .obj m => m.length
  | _ => 0

/-- `count_stages(arch)`: calling `.get` on a non-dict raises
`AttributeError`. -/
def count_stages : Value → Except PyError Nat
  | .obj kvs => .ok (stage_count kvs)
  | _ => .error PyError.attributeError

/-- The `agents` expression of `count_agents`:
`arch.get("agents", arch.get("roles", arch.get("workers", [])))`. -/
def agents_field (kvs : List (String × Value)) : Value :=
  dictGet kvs "agents" (dictGet kvs "roles" (dictGet kvs "workers" (.arr [])))

/-- Agent count of a mapping: length of the agents field when it is a
sequence or a mapping, else 0. -/
def agent_count (kvs : List (String × Value)) : Nat :=
  match agents_field kvs with
  | .arr xs => xs.length
  | .obj m => m.length
  | _ => 0

/-- `count_agents(arch)`: calling `.get` on a non-dict raises
`AttributeError`. -/
def count_agents : Value → Except PyError Nat
  | .obj kvs => .ok (agent_count kvs)
  | _ => .error PyError.attributeError

/-- A finding produced for a matched pattern: pattern name, severity,
description, fix text, evidence string. -/
structure Finding where
  pattern : String
  severity : String
  description : String
  fix : String
  evidence : String
deriving DecidableEq, Repr

/-- The finding appended for a keyword pattern whose `matched` list is
non-empty. -/
def keywordFinding (name : String) (p : Pattern) (matched : List String) : Finding :=
  { pattern := name, severity := p.severity, description := p.description,
    fix := p.fix, evidence := "Keywords found: " ++ joinWith ", " matched }

/-- The finding appended for `excessive_pipeline` when the stage count
exceeds 4. -/
def stageFinding (p : Pattern) (n : Nat) : Finding :=
  { pattern := "excessive_pipeline", severity := p.severity,
    description := p.description, fix := p.fix,
    evidence := "Found " ++ toString n ++ " stages (max recommended: 4)" }

/-- The finding appended when the agent count exceeds 7. -/
def agentFinding (n : Nat) : Finding :=
  { pattern := "excessive_agents", severity := "MEDIUM",
    description := "Architecture has " ++ toString n ++
      " agents. More agents = more coordination overhead.",
    fix := "Reduce to minimum viable agent count. Start with 1, justify each addition.",
    evidence := "Agent count: " ++ toString n }

/-- The finding appended when no contract indicator term occurs. -/
def missingContractsFinding : Finding :=
  { pattern := "missing_contracts", severity := "HIGH",
    description := "No contract definitions found. Agents will produce incompatible interfaces.",
    fix := "Define typed interface contracts BEFORE implementation begins.",
    evidence := "No contract-related keywords in architecture description" }

/-- The finding appended when no test-gate indicator term occurs. -/
def missingTestGatesFinding : Finding :=
  { pattern := "missing_test_gates", severity := "HIGH",
    description := "No mechanical test gates found. Acceptance will rely on subjective evaluation.",
    fix := "Generate executable tests from contracts. Tests are the only acceptance criterion.",
    evidence := "No test-gate-related keywords in architecture description" }

/-- The contract indicator terms of the `has_contracts` check. -/
def contractIndicators : List String :=
  ["contract", "interface_spec", "typed_interface", "componentcontract"]

/-- The test-gate indicator terms of the `has_tests` check. -/
def testIndicators : List String :=
  ["test_suite", "contract_test", "mechanical_gate", "pass_fail"]

/-- `has_contracts`: some contract indicator term occurs in the lowercased
full text (the terms are already lowercase in the source). -/
def has_contracts (full_text : String) : Bool :=
  contractIndicators.any (fun kw => strContains (lowerStr full_text) kw)

/-- `has_tests`: some test-gate indicator term occurs in the lowercased
full text. -/
def has_tests (full_text : String) : Bool :=
  testIndicators.any (fun kw => strContains (lowerStr full_text) kw)

/-- One iteration of the `for pattern_name, pattern in
DYSFUNCTION_PATTERNS.items()` loop of `validate`: the `excessive_pipeline`
entry is checked by stage count, every other entry by keywords; a finding
is appended when the check fires. -/
def stepPattern (arch : Value) (full_text : String) (acc : List Finding)
    (p : String × Pattern) : Except PyError (List Finding) :=
  if p.1 == "excessive_pipeline" then
    match count_stages arch with
    | .error e => .error e
    | .ok n => .ok (acc ++ (if n > 4 then [stageFinding p.2 n] else []))
  else
    .ok (acc ++
      (if (check_keywords full_text p.2.keywords).length > 0 then
        [keywordFinding p.1 p.2 (check_keywords full_text p.2.keywords)]
      else []))

/-- `validate(arch)`: flatten the document, run the registry loop, then the
agent-count check and the two presence checks, in source order. Errors
propagate as in Python (an uncaught exception aborts with no findings). -/
def validate (arch : Value) : Except PyError (List Finding) := do
  let full_text := flatten_to_text arch 0
  let fs ← DYSFUNCTION_PATTERNS.foldlM (stepPattern arch full_text) []
  let n ← count_agents arch
  let fs := if n > 7 then fs ++ [agentFinding n] else fs
  let fs := if !has_contracts full_text then fs ++ [missingContractsFinding] else fs
  let fs := if !has_tests full_text then fs ++ [missingTestGatesFinding] else fs
  pure fs

/-- Abstract run input for `main`: whether a CLI argument was given,
whether the file exists, the path suffix, whether the YAML library is
importable, and the outcomes of running the two external parsers on the
file content (`none` = the parser raises on this content). -/
structure RunInput where
  hasArg : Bool
  fileExists : Bool
  suffix : String
  hasYaml : Bool
  jsonParse : Option Value
  yamlParse : Option Value

/-- Result of `load_architecture`: a parsed value, the handled
missing-YAML exit (a one-line `print` to stdout then `sys.exit(1)`), or an
exception left to propagate. -/
inductive LoadResult where
  | ok (v : Value)
  | exitMissingYaml
  | raised (e : PyError)

/-- `load_architecture(filepath)`: dispatch on the suffix; `.yaml`/`.yml`
requires the YAML library (else handled exit) and raises `yaml.YAMLError`
on bad content; `.json` raises `json.JSONDecodeError` on bad content; any
other suffix tries JSON first, then YAML when available, else raises
`ValueError` ("Cannot parse ..."). -/
def load_architecture (inp : RunInput) : LoadResult :=
  if inp.suffix == ".yaml" || inp.suffix == ".yml" then
    if !inp.hasYaml then .exitMissingYaml
    else
      match inp.yamlParse with
      | some v => .ok v
      | none => .raised PyError.yamlError
  else if inp.suffix == ".json" then
    match inp.jsonParse with
    | some v => .ok v
    | none => .raised PyError.jsonDecodeError
  else
    match inp.jsonParse with
    | some v => .ok v
    | none =>
      if inp.hasYaml then
        match inp.yamlParse with
        | some v => .ok v
        | none => .raised PyError.yamlError
      else .raised PyError.valueError

/-- Outcome of a whole run of `main`. The first three constructors are
handled error exits: a `print` to standard output followed by
`sys.exit(1)`. `uncaughtCrash e` is an exception that escapes `main`: the
interpreter prints a multi-line traceback to standard error and the
process exits with status 1. `passExit` prints the PASS message and exits
0; `failExit` prints the findings and the FAIL line and exits 1;
`warnExit` prints the findings and the WARN line and exits 0. -/
inductive RunOutcome where
  | usageExit
  | fileNotFoundExit
  | yamlMissingExit
  | uncaughtCrash (e : PyError)
  | passExit
  | failExit (findings : List Finding)
  | warnExit (findings : List Finding)
deriving DecidableEq, Repr

namespace Py

/-- `main()`: argument check, existence check, load, validate, report. -/
def main (inp : RunInput) : RunOutcome :=
  if !inp.hasArg then .usageExit
  else if !inp.fileExists then .fileNotFoundExit
  else
    match load_architecture inp with
    | .exitMissingYaml => .yamlMissingExit
    | .raised e => .uncaughtCrash e
    | .ok v =>
      match validate v with
      | .error e => .uncaughtCrash e
      | .ok findings =>
        if findings.isEmpty then .passExit
        else if (findings.filter (fun f => f.severity == "HIGH")).length > 0 then
          .failExit findings
        else .warnExit findings

end Py

/-- Process exit status of each outcome (an uncaught Python exception
makes the interpreter exit with status 1). -/
def exitCode : RunOutcome → Nat
  | .passExit => 0
  | .warnExit _ => 0
  | _ => 1

/-- The findings the run reports: empty unless the run reaches the
reporting stage (PASS reports an empty list). -/
def reportedFindings : RunOutcome → List Finding
  | .failExit fs => fs
  | .warnExit fs => fs
  | _ => []

/-- Whether the run reached the reporting stage of `main` (PASS, FAIL or
WARN) rather than ending in an error exit or an uncaught exception. -/
def completedReport : RunOutcome → Bool
  | .passExit => true
  | .failExit _ => true
  | .warnExit _ => true
  | _ => false

/-- The optional finding contributed by one keyword-based registry entry. -/
def keywordOpt (full_text : String) (name : String) (p : Pattern) : List Finding :=
  if (check_keywords full_text p.keywords).length > 0 then
    [keywordFinding name p (check_keywords full_text p.keywords)]
  else []

/-- Closed form of `validate` on a mapping, established by
`validate_obj_eq`: the six registry entries in registry order (the
stage-count check sits at the `excessive_pipeline` position), then the
agent-count check, then the two presence checks. -/
def validatePure (kvs : List (String × Value)) : List Finding :=
  let ft := flatten_to_text (.obj kvs) 0
  keywordOpt ft "review_chain" reviewChainPattern ++
  keywordOpt ft "escalation_hierarchy" escalationHierarchyPattern ++
  keywordOpt ft "confidence_scoring" confidenceScoringPattern ++
  keywordOpt ft "consensus_protocol" consensusProtocolPattern ++
  (if stage_count kvs > 4 then [stageFinding excessivePipelinePattern (stage_count kvs)] else []) ++
  keywordOpt ft "agent_evaluates_agent" agentEvaluatesAgentPattern ++
  (if agent_count kvs > 7 then [agentFinding (agent_count kvs)] else []) ++
  (if has_contracts ft then [] else [missingContractsFinding]) ++
  (if has_tests ft then [] else [missingTestGatesFinding])

theorem ite_append_ite {c : Prop} [Decidable c] (x y : List Finding) :
    (if c then x ++ y else x) = x ++ (if c then y else []) := by
  by_cases h : c <;> simp [h]

theorem ite_not_append {c : Bool} (x y : List Finding) :
    (if !c then x ++ y else x) = x ++ (if c = true then [] else y) := by
  cases c <;> simp

/-- `validate` on a mapping never raises and produces exactly the closed
form `validatePure`. -/
theorem validate_obj_eq (kvs : List (String × Value)) :
    validate (Value.obj kvs) = Except.ok (validatePure kvs) := by
  simp only [validate, DYSFUNCTION_PATTERNS, List.foldlM, stepPattern, count_stages,
    count_agents, bind, Except.bind, pure, Except.pure, validatePure, keywordOpt,
    ite_append_ite, ite_not_append]
  simp only [List.append_assoc, List.nil_append]
  cases h1 : has_contracts (flatten_to_text (Value.obj kvs) 0) <;>
    cases h2 : has_tests (flatten_to_text (Value.obj kvs) 0) <;> simp

/-- The `full_text` that `validate` computes for a mapping. -/
def fullTextOf (kvs : List (String × Value)) : String :=
  flatten_to_text (.obj kvs) 0

theorem mem_ite_singleton {c : Prop} [Decidable c] {x f : Finding} :
    (f ∈ if c then [x] else ([] : List Finding)) ↔ c ∧ f = x := by
  by_cases h : c <;> simp [h]

theorem mem_ite_nil_singleton {c : Prop} [Decidable c] {x f : Finding} :
    (f ∈ if c then ([] : List Finding) else [x]) ↔ ¬c ∧ f = x := by
  by_cases h : c <;> simp [h]

theorem mem_keywordOpt {ft name : String} {p : Pattern} {f : Finding} :
    f ∈ keywordOpt ft name p ↔
      0 < (check_keywords ft p.keywords).length ∧
        f = keywordFinding name p (check_keywords ft p.keywords) := by
  simp [keywordOpt, mem_ite_singleton]

theorem check_keywords_pos (text : String) (kws : List String) :
    0 < (check_keywords text kws).length ↔
      ∃ kw ∈ kws, strContains (lowerStr text) (lowerStr kw) = true := by
  rw [List.length_pos, Ne, check_keywords, List.filter_eq_nil_iff]
  push_neg
  simp

/-- Membership in the closed form: a finding is produced exactly by one of
the nine checks, in the stated shape. -/
theorem mem_validatePure {kvs : List (String × Value)} {f : Finding} :
    f ∈ validatePure kvs ↔
      (0 < (check_keywords (fullTextOf kvs) reviewChainPattern.keywords).length ∧
        f = keywordFinding "review_chain" reviewChainPattern
              (check_keywords (fullTextOf kvs) reviewChainPattern.keywords)) ∨
      (0 < (check_keywords (fullTextOf kvs) escalationHierarchyPattern.keywords).length ∧
        f = keywordFinding "escalation_hierarchy" escalationHierarchyPattern
              (check_keywords (fullTextOf kvs) escalationHierarchyPattern.keywords)) ∨
      (0 < (check_keywords (fullTextOf kvs) confidenceScoringPattern.keywords).length ∧
        f = keywordFinding "confidence_scoring" confidenceScoringPattern
              (check_keywords (fullTextOf kvs) confidenceScoringPattern.keywords)) ∨
      (0 < (check_keywords (fullTextOf kvs) consensusProtocolPattern.keywords).length ∧
        f = keywordFinding "consensus_protocol" consensusProtocolPattern
              (check_keywords (fullTextOf kvs) consensusProtocolPattern.keywords)) ∨
      (4 < stage_count kvs ∧ f = stageFinding excessivePipelinePattern (stage_count kvs)) ∨
      (0 < (check_keywords (fullTextOf kvs) agentEvaluatesAgentPattern.keywords).length ∧
        f = keywordFinding "agent_evaluates_agent" agentEvaluatesAgentPattern
              (check_keywords (fullTextOf kvs) agentEvaluatesAgentPattern.keywords)) ∨
      (7 < agent_count kvs ∧ f = agentFinding (agent_count kvs)) ∨
      (¬has_contracts (fullTextOf kvs) = true ∧ f = missingContractsFinding) ∨
      (¬has_tests (fullTextOf kvs) = true ∧ f = missingTestGatesFinding) := by
  simp only [validatePure, fullTextOf, List.mem_append, mem_keywordOpt,
    mem_ite_singleton, mem_ite_nil_singleton, gt_iff_lt]
  simp only [or_assoc]

deriving instance DecidableEq for Except

/-- The example document of spec §8: two roles and a five-stage pipeline. -/
def rolesPipelineDoc : List (String × Value) :=
  [("roles", Value.arr [Value.str "reviewer", Value.str "implementer"]),
   ("pipeline", Value.arr [Value.str "s1", Value.str "s2", Value.str "s3",
                           Value.str "s4", Value.str "s5"])]

/-- A run input presenting the roles/pipeline document as a `.json` file. -/
def rolesPipelineInput : RunInput :=
  { hasArg := true, fileExists := true, suffix := ".json", hasYaml := true,
    jsonParse := some (Value.obj rolesPipelineDoc), yamlParse := none }

/-- C6: the document `{"roles": ["reviewer","implementer"], "pipeline":
["s1","s2","s3","s4","s5"]}` yields exactly the four findings
`review_chain` (keyword `reviewer`), `excessive_pipeline` (5 stages),
`missing_contracts` and `missing_test_gates`, and the process exits with
status 1. -/
theorem c6_roles_pipeline_document :
    validate (Value.obj rolesPipelineDoc) = Except.ok
      [keywordFinding "review_chain" reviewChainPattern ["reviewer"],
       stageFinding excessivePipelinePattern 5,
       missingContractsFinding,
       missingTestGatesFinding] ∧
    stage_count rolesPipelineDoc = 5 ∧
    Py.main rolesPipelineInput = RunOutcome.failExit
      [keywordFinding "review_chain" reviewChainPattern ["reviewer"],
       stageFinding excessivePipelinePattern 5,
       missingContractsFinding,
       missingTestGatesFinding] ∧
    exitCode (Py.main rolesPipelineInput) = 1 := by
  decide

/-- C2: a parsed mapping with no registered keyword occurring in its
flattened text, at most 4 stages, at most 7 agents, and both a contract
indicator and a test-gate indicator present, validates to the empty
findings list, and a run presenting it as a `.json` file prints PASS and
exits with status 0. -/
theorem c2_clean_document_passes (kvs : List (String × Value)) (inp : RunInput)
    (hkw : ∀ p ∈ DYSFUNCTION_PATTERNS, check_keywords (fullTextOf kvs) p.2.keywords = [])
    (hst : stage_count kvs ≤ 4)
    (hag : agent_count kvs ≤ 7)
    (hc : has_contracts (fullTextOf kvs) = true)
    (ht : has_tests (fullTextOf kvs) = true)
    (ha : inp.hasArg = true) (hf : inp.fileExists = true)
    (hs : inp.suffix = ".json") (hj : inp.jsonParse = some (Value.obj kvs)) :
    validate (Value.obj kvs) = Except.ok [] ∧
    Py.main inp = RunOutcome.passExit ∧ exitCode (Py.main inp) = 0 := by
  have h1 := hkw ("review_chain", reviewChainPattern) (by simp [DYSFUNCTION_PATTERNS])
  have h2 := hkw ("escalation_hierarchy", escalationHierarchyPattern)
    (by simp [DYSFUNCTION_PATTERNS])
  have h3 := hkw ("confidence_scoring", confidenceScoringPattern)
    (by simp [DYSFUNCTION_PATTERNS])
  have h4 := hkw ("consensus_protocol", consensusProtocolPattern)
    (by simp [DYSFUNCTION_PATTERNS])
  have h5 := hkw ("agent_evaluates_agent", agentEvaluatesAgentPattern)
    (by simp [DYSFUNCTION_PATTERNS])
  simp only [fullTextOf] at h1 h2 h3 h4 h5 hc ht
  have hpure : validatePure kvs = [] := by
    simp only [validatePure, keywordOpt]
    rw [h1, h2, h3, h4, h5]
    simp [hc, ht, Nat.not_lt.mpr hst, Nat.not_lt.mpr hag]
  have hv : validate (Value.obj kvs) = Except.ok [] := by
    rw [validate_obj_eq, hpure]
  refine ⟨hv, ?_, ?_⟩
  · simp [Py.main, load_architecture, ha, hf, hs, hj, hv]
  · simp [Py.main, load_architecture, ha, hf, hs, hj, hv, exitCode]

/-- The PASS example document of spec §8. -/
def cleanDoc : List (String × Value) :=
  [("agents", Value.arr [Value.str "a1"]),
   ("stages", Value.arr [Value.str "decompose", Value.str "contract",
                         Value.str "implement", Value.str "integrate"]),
   ("contract", Value.bool true),
   ("test_suite", Value.bool true)]

/-- A run input presenting the PASS example document as a `.json` file. -/
def cleanInput : RunInput :=
  { hasArg := true, fileExists := true, suffix := ".json", hasYaml := true,
    jsonParse := some (Value.obj cleanDoc), yamlParse := none }

/-- Witness for C2 at the concrete PASS example document. -/
theorem c2_clean_document_passes_witness :
    ((∀ p ∈ DYSFUNCTION_PATTERNS, check_keywords (fullTextOf cleanDoc) p.2.keywords = []) ∧
     stage_count cleanDoc ≤ 4 ∧ agent_count cleanDoc ≤ 7 ∧
     has_contracts (fullTextOf cleanDoc) = true ∧ has_tests (fullTextOf cleanDoc) = true) ∧
    validate (Value.obj cleanDoc) = Except.ok [] ∧
    Py.main cleanInput = RunOutcome.passExit ∧ exitCode (Py.main cleanInput) = 0 := by
  refine ⟨⟨by decide, by decide, by decide, by decide, by decide⟩, ?_⟩
  exact c2_clean_document_passes cleanDoc cleanInput (by decide) (by decide) (by decide)
    (by decide) (by decide) rfl rfl rfl rfl

/-- C3: for every parsed mapping and every registry entry with a non-empty
keyword list, a finding named after that entry is produced iff some keyword
of the entry occurs case-insensitively as a substring of the flattened
text, and such a finding's evidence lists exactly the matching keywords. -/
theorem c3_keyword_match_iff_finding (kvs : List (String × Value)) (name : String)
    (p : Pattern) (hmem : (name, p) ∈ DYSFUNCTION_PATTERNS) (hne : p.keywords ≠ []) :
    validate (Value.obj kvs) = Except.ok (validatePure kvs) ∧
    ((∃ f ∈ validatePure kvs, f.pattern = name) ↔
      ∃ kw ∈ p.keywords, strContains (lowerStr (fullTextOf kvs)) (lowerStr kw) = true) ∧
    (∀ f ∈ validatePure kvs, f.pattern = name →
      f.evidence = "Keywords found: " ++
        joinWith ", " (check_keywords (fullTextOf kvs) p.keywords)) := by
  simp only [DYSFUNCTION_PATTERNS, List.mem_cons, List.not_mem_nil, or_false,
    Prod.mk.injEq] at hmem
  rcases hmem with ⟨rfl, rfl⟩ | ⟨rfl, rfl⟩ | ⟨rfl, rfl⟩ | ⟨rfl, rfl⟩ | ⟨rfl, rfl⟩ | ⟨rfl, rfl⟩
  · refine ⟨validate_obj_eq kvs, ⟨?_, ?_⟩, ?_⟩
    · rintro ⟨f, hf, hpat⟩
      rcases mem_validatePure.mp hf with ⟨hpos, rfl⟩ | ⟨hpos, rfl⟩ | ⟨hpos, rfl⟩ |
        ⟨hpos, rfl⟩ | ⟨hpos, rfl⟩ | ⟨hpos, rfl⟩ | ⟨hpos, rfl⟩ | ⟨hpos, rfl⟩ | ⟨hpos, rfl⟩ <;>
        first
          | exact (check_keywords_pos _ _).mp hpos
          | simp [keywordFinding, stageFinding, agentFinding, missingContractsFinding,
              missingTestGatesFinding] at hpat
    · intro h
      exact ⟨keywordFinding "review_chain" reviewChainPattern
          (check_keywords (fullTextOf kvs) reviewChainPattern.keywords),
        mem_validatePure.mpr (Or.inl ⟨(check_keywords_pos _ _).mpr h, rfl⟩), rfl⟩
    · rintro f hf hpat
      rcases mem_validatePure.mp hf with ⟨hpos, rfl⟩ | ⟨hpos, rfl⟩ | ⟨hpos, rfl⟩ |
        ⟨hpos, rfl⟩ | ⟨hpos, rfl⟩ | ⟨hpos, rfl⟩ | ⟨hpos, rfl⟩ | ⟨hpos, rfl⟩ | ⟨hpos, rfl⟩ <;>
        first
          | rfl
          | simp [keywordFinding, stageFinding, agentFinding, missingContractsFinding,
              missingTestGatesFinding] at hpat
  · refine ⟨validate_obj_eq kvs, ⟨?_, ?_⟩, ?_⟩
    · rintro ⟨f, hf, hpat⟩
      rcases mem_validatePure.mp hf with ⟨hpos, rfl⟩ | ⟨hpos, rfl⟩ | ⟨hpos, rfl⟩ |
        ⟨hpos, rfl⟩ | ⟨hpos, rfl⟩ | ⟨hpos, rfl⟩ | ⟨hpos, rfl⟩ | ⟨hpos, rfl⟩ | ⟨hpos, rfl⟩ <;>
        first
          | exact (check_keywords_pos _ _).mp hpos
          | simp [keywordFinding, stageFinding, agentFinding, missingContractsFinding,
              missingTestGatesFinding] at hpat
    · intro h
      exact ⟨keywordFinding "escalation_hierarchy" escalationHierarchyPattern
          (check_keywords (fullTextOf kvs) escalationHierarchyPattern.keywords),
        mem_validatePure.mpr (Or.inr (Or.inl ⟨(check_keywords_pos _ _).mpr h, rfl⟩)), rfl⟩
    · rintro f hf hpat
      rcases mem_validatePure.mp hf with ⟨hpos, rfl⟩ | ⟨hpos, rfl⟩ | ⟨hpos, rfl⟩ |
        ⟨hpos, rfl⟩ | ⟨hpos, rfl⟩ | ⟨hpos, rfl⟩ | ⟨hpos, rfl⟩ | ⟨hpos, rfl⟩ | ⟨hpos, rfl⟩ <;>
        first
          | rfl
          | simp [keywordFinding, stageFinding, agentFinding, missingContractsFinding,
              missingTestGatesFinding] at hpat
  · refine ⟨validate_obj_eq kvs, ⟨?_, ?_⟩, ?_⟩
    · rintro ⟨f, hf, hpat⟩
      rcases mem_validatePure.mp hf with ⟨hpos, rfl⟩ | ⟨hpos, rfl⟩ | ⟨hpos, rfl⟩ |
        ⟨hpos, rfl⟩ | ⟨hpos, rfl⟩ | ⟨hpos, rfl⟩ | ⟨hpos, rfl⟩ | ⟨hpos, rfl⟩ | ⟨hpos, rfl⟩ <;>
        first
          | exact (check_keywords_pos _ _).mp hpos
          | simp [keywordFinding, stageFinding, agentFinding, missingContractsFinding,
              missingTestGatesFinding] at hpat
    · intro h
      exact ⟨keywordFinding "confidence_scoring" confidenceScoringPattern
          (check_keywords (fullTextOf kvs) confidenceScoringPattern.keywords),
        mem_validatePure.mpr (Or.inr (Or.inr (Or.inl ⟨(check_keywords_pos _ _).mpr h, rfl⟩))),
        rfl⟩
    · rintro f hf hpat
      rcases mem_validatePure.mp hf with ⟨hpos, rfl⟩ | ⟨hpos, rfl⟩ | ⟨hpos, rfl⟩ |
        ⟨hpos, rfl⟩ | ⟨hpos, rfl⟩ | ⟨hpos, rfl⟩ | ⟨hpos, rfl⟩ | ⟨hpos, rfl⟩ | ⟨hpos, rfl⟩ <;>
        first
          | rfl
          | simp [keywordFinding, stageFinding, agentFinding, missingContractsFinding,
              missingTestGatesFinding] at hpat
  · refine ⟨validate_obj_eq kvs, ⟨?_, ?_⟩, ?_⟩
    · rintro ⟨f, hf, hpat⟩
      rcases mem_validatePure.mp hf with ⟨hpos, rfl⟩ | ⟨hpos, rfl⟩ | ⟨hpos, rfl⟩ |
        ⟨hpos, rfl⟩ | ⟨hpos, rfl⟩ | ⟨hpos, rfl⟩ | ⟨hpos, rfl⟩ | ⟨hpos, rfl⟩ | ⟨hpos, rfl⟩ <;>
        first
          | exact (check_keywords_pos _ _).mp hpos
          | simp [keywordFinding, stageFinding, agentFinding, missingContractsFinding,
              missingTestGatesFinding] at hpat
    · intro h
      exact ⟨keywordFinding "consensus_protocol" consensusProtocolPattern
          (check_keywords (fullTextOf kvs) consensusProtocolPattern.keywords),
        mem_validatePure.mpr
          (Or.inr (Or.inr (Or.inr (Or.inl ⟨(check_keywords_pos _ _).mpr h, rfl⟩)))), rfl⟩
    · rintro f hf hpat
      rcases mem_validatePure.mp hf with ⟨hpos, rfl⟩ | ⟨hpos, rfl⟩ | ⟨hpos, rfl⟩ |
        ⟨hpos, rfl⟩ | ⟨hpos, rfl⟩ | ⟨hpos, rfl⟩ | ⟨hpos, rfl⟩ | ⟨hpos, rfl⟩ | ⟨hpos, rfl⟩ <;>
        first
          | rfl
          | simp [keywordFinding, stageFinding, agentFinding, missingContractsFinding,
              missingTestGatesFinding] at hpat
  · exact absurd rfl hne
  · refine ⟨validate_obj_eq kvs, ⟨?_, ?_⟩, ?_⟩
    · rintro ⟨f, hf, hpat⟩
      rcases mem_validatePure.mp hf with ⟨hpos, rfl⟩ | ⟨hpos, rfl⟩ | ⟨hpos, rfl⟩ |
        ⟨hpos, rfl⟩ | ⟨hpos, rfl⟩ | ⟨hpos, rfl⟩ | ⟨hpos, rfl⟩ | ⟨hpos, rfl⟩ | ⟨hpos, rfl⟩ <;>
        first
          | exact (check_keywords_pos _ _).mp hpos
          | simp [keywordFinding, stageFinding, agentFinding, missingContractsFinding,
              missingTestGatesFinding] at hpat
    · intro h
      exact ⟨keywordFinding "agent_evaluates_agent" agentEvaluatesAgentPattern
          (check_keywords (fullTextOf kvs) agentEvaluatesAgentPattern.keywords),
        mem_validatePure.mpr
          (Or.inr (Or.inr (Or.inr (Or.inr (Or.inr
            (Or.inl ⟨(check_keywords_pos _ _).mpr h, rfl⟩)))))), rfl⟩
    · rintro f hf hpat
      rcases mem_validatePure.mp hf with ⟨hpos, rfl⟩ | ⟨hpos, rfl⟩ | ⟨hpos, rfl⟩ |
        ⟨hpos, rfl⟩ | ⟨hpos, rfl⟩ | ⟨hpos, rfl⟩ | ⟨hpos, rfl⟩ | ⟨hpos, rfl⟩ | ⟨hpos, rfl⟩ <;>
        first
          | rfl
          | simp [keywordFinding, stageFinding, agentFinding, missingContractsFinding,
              missingTestGatesFinding] at hpat

/-- A document whose flattened text contains the literal term `reviewer`. -/
def reviewerDoc : List (String × Value) :=
  [("lead", Value.str "reviewer")]

/-- Witness for C3 at the concrete `review_chain` entry and a document
containing the term `reviewer`. -/
theorem c3_keyword_match_iff_finding_witness :
    (("review_chain", reviewChainPattern) ∈ DYSFUNCTION_PATTERNS ∧
     reviewChainPattern.keywords ≠ []) ∧
    validate (Value.obj reviewerDoc) = Except.ok (validatePure reviewerDoc) ∧
    ((∃ f ∈ validatePure reviewerDoc, f.pattern = "review_chain") ↔
      ∃ kw ∈ reviewChainPattern.keywords,
        strContains (lowerStr (fullTextOf reviewerDoc)) (lowerStr kw) = true) ∧
    (∀ f ∈ validatePure reviewerDoc, f.pattern = "review_chain" →
      f.evidence = "Keywords found: " ++
        joinWith ", " (check_keywords (fullTextOf reviewerDoc) reviewChainPattern.keywords)) :=
  ⟨⟨by decide, by decide⟩,
   c3_keyword_match_iff_finding reviewerDoc "review_chain" reviewChainPattern
     (by decide) (by decide)⟩

/-- The finding order asserted by the claim: every keyword-based pattern
finding first (in registry order among themselves), then the stage-count
finding, then the agent-count finding, then the two presence findings.
This definition follows the claim's words and is compared against the
code's order. -/
def claimedFindingOrder (kvs : List (String × Value)) : List Finding :=
  let ft := fullTextOf kvs
  keywordOpt ft "review_chain" reviewChainPattern ++
  keywordOpt ft "escalation_hierarchy" escalationHierarchyPattern ++
  keywordOpt ft "confidence_scoring" confidenceScoringPattern ++
  keywordOpt ft "consensus_protocol" consensusProtocolPattern ++
  keywordOpt ft "agent_evaluates_agent" agentEvaluatesAgentPattern ++
  (if stage_count kvs > 4 then [stageFinding excessivePipelinePattern (stage_count kvs)] else []) ++
  (if agent_count kvs > 7 then [agentFinding (agent_count kvs)] else []) ++
  (if has_contracts ft then [] else [missingContractsFinding]) ++
  (if has_tests ft then [] else [missingTestGatesFinding])

/-- A document with five stages and a keyword of the registry's last
entry, separating the code's order from the claimed one. -/
def stagesCheckWorkDoc : List (String × Value) :=
  [("stages", Value.arr [Value.str "s1", Value.str "s2", Value.str "s3",
                         Value.str "s4", Value.str "s5"]),
   ("note", Value.str "check_work")]

/-- Counterexample to C4: on `stagesCheckWorkDoc` the code emits the
stage-count finding before the keyword finding of `agent_evaluates_agent`
(registry order), not after every keyword finding as the claim states. -/
theorem c4_counterexample_order :
    validate (Value.obj stagesCheckWorkDoc) ≠
      Except.ok (claimedFindingOrder stagesCheckWorkDoc) ∧
    (validatePure stagesCheckWorkDoc).map Finding.pattern =
      ["excessive_pipeline", "agent_evaluates_agent",
       "missing_contracts", "missing_test_gates"] ∧
    (claimedFindingOrder stagesCheckWorkDoc).map Finding.pattern =
      ["agent_evaluates_agent", "excessive_pipeline",
       "missing_contracts", "missing_test_gates"] := by
  decide

/-- C4 as amended: `validate` produces the findings in registry order —
`review_chain`, `escalation_hierarchy`, `confidence_scoring`,
`consensus_protocol`, the stage-count finding at the `excessive_pipeline`
position, `agent_evaluates_agent` — followed by the agent-count finding,
the missing-contracts finding and the missing-test-gates finding. -/
theorem c4_findings_in_registry_order (kvs : List (String × Value)) :
    validate (Value.obj kvs) = Except.ok
      (keywordOpt (fullTextOf kvs) "review_chain" reviewChainPattern ++
       keywordOpt (fullTextOf kvs) "escalation_hierarchy" escalationHierarchyPattern ++
       keywordOpt (fullTextOf kvs) "confidence_scoring" confidenceScoringPattern ++
       keywordOpt (fullTextOf kvs) "consensus_protocol" consensusProtocolPattern ++
       (if stage_count kvs > 4 then
          [stageFinding excessivePipelinePattern (stage_count kvs)] else []) ++
       keywordOpt (fullTextOf kvs) "agent_evaluates_agent" agentEvaluatesAgentPattern ++
       (if agent_count kvs > 7 then [agentFinding (agent_count kvs)] else []) ++
       (if has_contracts (fullTextOf kvs) then [] else [missingContractsFinding]) ++
       (if has_tests (fullTextOf kvs) then [] else [missingTestGatesFinding])) := by
  rw [validate_obj_eq]
  rfl

/-- A document listing exactly seven agents. -/
def sevenAgentsDoc : List (String × Value) :=
  [("agents", Value.arr [Value.str "a1", Value.str "a2", Value.str "a3", Value.str "a4",
                         Value.str "a5", Value.str "a6", Value.str "a7"])]

/-- The eight agent names of `eightAgentsDoc`. -/
def eightAgentNames : List Value :=
  [Value.str "a1", Value.str "a2", Value.str "a3", Value.str "a4",
   Value.str "a5", Value.str "a6", Value.str "a7", Value.str "a8"]

/-- A document listing exactly eight agents. -/
def eightAgentsDoc : List (String × Value) :=
  [("agents", Value.arr eightAgentNames)]

/-- C7: the agent count is the length of the first present field among
`agents`, `roles`, `workers` (defaulting to 0), and an `excessive_agents`
finding — severity MEDIUM, description and evidence embedding the count —
is produced iff that count exceeds 7; seven agents yield no such finding,
eight yield one with evidence `Agent count: 8`. -/
theorem c7_agent_count_check :
    (∀ kvs : List (String × Value),
      validate (Value.obj kvs) = Except.ok (validatePure kvs) ∧
      ((∃ f ∈ validatePure kvs, f.pattern = "excessive_agents") ↔ 7 < agent_count kvs) ∧
      (∀ f ∈ validatePure kvs, f.pattern = "excessive_agents" →
        f.severity = "MEDIUM" ∧
        f.description = "Architecture has " ++ toString (agent_count kvs) ++
          " agents. More agents = more coordination overhead." ∧
        f.evidence = "Agent count: " ++ toString (agent_count kvs))) ∧
    (∀ (kvs : List (String × Value)) (xs : List Value),
      (kvs.find? (fun q => q.1 == "agents")).map Prod.snd = some (Value.arr xs) →
      agent_count kvs = xs.length) ∧
    (∀ kvs : List (String × Value),
      kvs.find? (fun q => q.1 == "agents") = none →
      kvs.find? (fun q => q.1 == "roles") = none →
      kvs.find? (fun q => q.1 == "workers") = none →
      agent_count kvs = 0) ∧
    agent_count sevenAgentsDoc = 7 ∧
    (validatePure sevenAgentsDoc).filter (fun f => f.pattern == "excessive_agents") = [] ∧
    agent_count eightAgentsDoc = 8 ∧
    (validatePure eightAgentsDoc).filter (fun f => f.pattern == "excessive_agents") =
      [agentFinding 8] ∧
    (agentFinding 8).evidence = "Agent count: 8" := by
  refine ⟨?_, ?_, ?_, by decide, by decide, by decide, by decide, by decide⟩
  · intro kvs
    refine ⟨validate_obj_eq kvs, ⟨?_, ?_⟩, ?_⟩
    · rintro ⟨f, hf, hpat⟩
      rcases mem_validatePure.mp hf with ⟨hpos, rfl⟩ | ⟨hpos, rfl⟩ | ⟨hpos, rfl⟩ |
        ⟨hpos, rfl⟩ | ⟨hpos, rfl⟩ | ⟨hpos, rfl⟩ | ⟨hpos, rfl⟩ | ⟨hpos, rfl⟩ | ⟨hpos, rfl⟩ <;>
        first
          | exact hpos
          | simp [keywordFinding, stageFinding, agentFinding, missingContractsFinding,
              missingTestGatesFinding] at hpat
    · intro h
      exact ⟨agentFinding (agent_count kvs),
        mem_validatePure.mpr
          (Or.inr (Or.inr (Or.inr (Or.inr (Or.inr (Or.inr (Or.inl ⟨h, rfl⟩))))))), rfl⟩
    · rintro f hf hpat
      rcases mem_validatePure.mp hf with ⟨hpos, rfl⟩ | ⟨hpos, rfl⟩ | ⟨hpos, rfl⟩ |
        ⟨hpos, rfl⟩ | ⟨hpos, rfl⟩ | ⟨hpos, rfl⟩ | ⟨hpos, rfl⟩ | ⟨hpos, rfl⟩ | ⟨hpos, rfl⟩ <;>
        first
          | exact ⟨rfl, rfl, rfl⟩
          | simp [keywordFinding, stageFinding, agentFinding, missingContractsFinding,
              missingTestGatesFinding] at hpat
  · intro kvs xs h
    unfold agent_count agents_field dictGet
    cases hf : kvs.find? (fun q => q.1 == "agents") with
    | none => rw [hf] at h; simp at h
    | some p =>
      rw [hf] at h
      simp at h
      simp [h]
  · intro kvs h1 h2 h3
    unfold agent_count agents_field dictGet
    rw [h1, h2, h3]
    rfl

/-- Witness for C7 at a concrete eight-agent document and the empty
document. -/
theorem c7_agent_count_check_witness :
    agent_count eightAgentsDoc = 8 ∧ agent_count ([] : List (String × Value)) = 0 :=
  ⟨c7_agent_count_check.2.1 eightAgentsDoc eightAgentNames rfl,
   c7_agent_count_check.2.2.1 [] rfl rfl rfl⟩

theorem flattenPairs_eq_bind (kvs : List (String × Value)) (d : Nat) :
    flattenPairs kvs d = kvs.flatMap (fun p => [p.1, flatten_to_text p.2 (d + 1)]) := by
  induction kvs with
  | nil => rfl
  | cons p rest ih => simp [flattenPairs, ih]

theorem flattenList_eq_map (xs : List Value) (d : Nat) :
    flattenList xs d = xs.map (fun v => flatten_to_text v (d + 1)) := by
  induction xs with
  | nil => rfl
  | cons v rest ih => simp [flattenList, ih]

/-- C8: the flattener returns the empty string whenever the depth counter
exceeds 10 (so content nested past the cap never reaches the text), and at
depth at most 10 it returns the space-joined key/value texts of a mapping,
element texts of a sequence, and string forms of scalars. -/
theorem c8_flatten_depth_cap :
    (∀ (v : Value) (d : Nat), 10 < d → flatten_to_text v d = "") ∧
    (∀ (s : String) (d : Nat), d ≤ 10 → flatten_to_text (Value.str s) d = s) ∧
    (∀ (kvs : List (String × Value)) (d : Nat), d ≤ 10 →
      flatten_to_text (Value.obj kvs) d =
        joinWith " " (kvs.flatMap (fun p => [p.1, flatten_to_text p.2 (d + 1)]))) ∧
    (∀ (xs : List Value) (d : Nat), d ≤ 10 →
      flatten_to_text (Value.arr xs) d =
        joinWith " " (xs.map (fun v => flatten_to_text v (d + 1)))) ∧
    (∀ (n : Int) (d : Nat), d ≤ 10 → flatten_to_text (Value.num n) d = intStr n) ∧
    (∀ (b : Bool) (d : Nat), d ≤ 10 →
      flatten_to_text (Value.bool b) d = if b then "True" else "False") ∧
    (∀ d : Nat, d ≤ 10 → flatten_to_text Value.null d = "None") := by
  refine ⟨?_, ?_, ?_, ?_, ?_, ?_, ?_⟩
  · intro v d hd
    rw [flatten_to_text.eq_def]
    simp [hd]
  · intro s d hd
    rw [flatten_to_text.eq_def]
    simp [Nat.not_lt.mpr hd]
  · intro kvs d hd
    rw [flatten_to_text.eq_def]
    simp [Nat.not_lt.mpr hd, flattenPairs_eq_bind]
  · intro xs d hd
    rw [flatten_to_text.eq_def]
    simp [Nat.not_lt.mpr hd, flattenList_eq_map]
  · intro n d hd
    rw [flatten_to_text.eq_def]
    simp [Nat.not_lt.mpr hd]
  · intro b d hd
    rw [flatten_to_text.eq_def]
    simp [Nat.not_lt.mpr hd]
  · intro d hd
    rw [flatten_to_text.eq_def]
    simp [Nat.not_lt.mpr hd]

/-- Witness for C8: at depth 11 even a string flattens to the empty
string; at depth 10 it is returned as is. -/
theorem c8_flatten_depth_cap_witness :
    flatten_to_text (Value.str "deep") 11 = "" ∧
    flatten_to_text (Value.str "deep") 10 = "deep" ∧
    flatten_to_text (Value.obj [("k", Value.str "v")]) 10 = "k " := by
  refine ⟨c8_flatten_depth_cap.1 (Value.str "deep") 11 (by decide),
    c8_flatten_depth_cap.2.1 "deep" 10 (by decide), ?_⟩
  have h11 := c8_flatten_depth_cap.1 (Value.str "v") 11 (by decide)
  rw [c8_flatten_depth_cap.2.2.1 [("k", Value.str "v")] 10 (by decide)]
  show joinWith " " ["k", flatten_to_text (Value.str "v") 11] = "k "
  rw [h11]
  rfl

/-- A run input whose file parses to a top-level JSON array. -/
def topArrayInput : RunInput :=
  { hasArg := true, fileExists := true, suffix := ".json", hasYaml := true,
    jsonParse := some (Value.arr []), yamlParse := none }

/-- A run input whose file parses to null (e.g. an empty YAML document). -/
def topNullInput : RunInput :=
  { hasArg := true, fileExists := true, suffix := ".yaml", hasYaml := true,
    jsonParse := none, yamlParse := some Value.null }

/-- C9: on any successfully parsed document whose top level is not a
mapping, the stage-count check's `arch.get` raises `AttributeError`, so
`validate` aborts with no findings; such a run crashes (uncaught
exception, exit status 1, nothing reported). -/
theorem c9_non_mapping_validate_crashes :
    (∀ xs : List Value, validate (Value.arr xs) = Except.error PyError.attributeError) ∧
    (∀ s : String, validate (Value.str s) = Except.error PyError.attributeError) ∧
    validate Value.null = Except.error PyError.attributeError ∧
    (∀ xs : List Value, count_stages (Value.arr xs) = Except.error PyError.attributeError) ∧
    Py.main topArrayInput = RunOutcome.uncaughtCrash PyError.attributeError ∧
    Py.main topNullInput = RunOutcome.uncaughtCrash PyError.attributeError ∧
    exitCode (Py.main topArrayInput) = 1 ∧
    reportedFindings (Py.main topArrayInput) = [] ∧
    completedReport (Py.main topArrayInput) = false := by
  refine ⟨?_, ?_, ?_, ?_, by decide, by decide, by decide, by decide, by decide⟩
  · intro xs
    simp [validate, DYSFUNCTION_PATTERNS, List.foldlM, stepPattern, count_stages,
      bind, Except.bind]
  · intro s
    simp [validate, DYSFUNCTION_PATTERNS, List.foldlM, stepPattern, count_stages,
      bind, Except.bind]
  · simp [validate, DYSFUNCTION_PATTERNS, List.foldlM, stepPattern, count_stages,
      bind, Except.bind]
  · intro xs
    simp [count_stages]

/-- Whether a value is a sequence or a mapping (the only shapes whose
length the counting checks take). -/
def isSized : Value → Bool
  | .arr _ => true
  | .obj _ => true
  | _ => false

/-- C10: when the key `stages` is present but holds a value that is
neither a sequence nor a mapping, the stage count is 0 and no
`excessive_pipeline` finding is produced, regardless of `pipeline` or
`phases`. -/
theorem c10_non_sized_stages_field (kvs : List (String × Value)) (v : Value)
    (hfind : (kvs.find? (fun q => q.1 == "stages")).map Prod.snd = some v)
    (hns : isSized v = false) :
    stage_count kvs = 0 ∧
    validate (Value.obj kvs) = Except.ok (validatePure kvs) ∧
    ∀ f ∈ validatePure kvs, f.pattern ≠ "excessive_pipeline" := by
  have hsc : stage_count kvs = 0 := by
    unfold stage_count stages_field dictGet
    cases hf : kvs.find? (fun q => q.1 == "stages") with
    | none => rw [hf] at hfind; simp at hfind
    | some p =>
      rw [hf] at hfind
      simp at hfind
      simp only [hfind]
      cases v <;> simp_all [isSized]
  refine ⟨hsc, validate_obj_eq kvs, ?_⟩
  rintro f hf hpat
  rcases mem_validatePure.mp hf with ⟨hpos, rfl⟩ | ⟨hpos, rfl⟩ | ⟨hpos, rfl⟩ |
    ⟨hpos, rfl⟩ | ⟨hpos, rfl⟩ | ⟨hpos, rfl⟩ | ⟨hpos, rfl⟩ | ⟨hpos, rfl⟩ | ⟨hpos, rfl⟩ <;>
    first
      | (rw [hsc] at hpos; omega)
      | simp [keywordFinding, stageFinding, agentFinding, missingContractsFinding,
          missingTestGatesFinding] at hpat

/-- A document where `stages` holds a string while `pipeline` holds five
elements. -/
def stagesStringDoc : List (String × Value) :=
  [("stages", Value.str "three"),
   ("pipeline", Value.arr [Value.str "s1", Value.str "s2", Value.str "s3",
                           Value.str "s4", Value.str "s5"])]

/-- Witness for C10 at a concrete document whose `stages` field is a
string and whose `pipeline` field has five elements. -/
theorem c10_non_sized_stages_field_witness :
    stage_count stagesStringDoc = 0 ∧
    validate (Value.obj stagesStringDoc) = Except.ok (validatePure stagesStringDoc) ∧
    ∀ f ∈ validatePure stagesStringDoc, f.pattern ≠ "excessive_pipeline" :=
  c10_non_sized_stages_field stagesStringDoc (Value.str "three") rfl rfl

/-- The outcomes in which the run fails before `validate` is reached: the
usage and missing-file exits, the missing-YAML exit, and the exceptions
raised by `load_architecture` (`validate` itself raises only
`AttributeError`). This encodes the claim's phrase "the run failed before
validation (usage error, missing file, or parse error)". -/
def failedBeforeValidation : RunOutcome → Bool
  | .usageExit => true
  | .fileNotFoundExit => true
  | .yamlMissingExit => true
  | .uncaughtCrash PyError.jsonDecodeError => true
  | .uncaughtCrash PyError.yamlError => true
  | .uncaughtCrash PyError.valueError => true
  | _ => false

theorem load_architecture_raised (inp : RunInput) (e : PyError)
    (h : load_architecture inp = LoadResult.raised e) :
    e = PyError.jsonDecodeError ∨ e = PyError.yamlError ∨ e = PyError.valueError := by
  unfold load_architecture at h
  repeat' split at h
  all_goals simp_all

theorem validate_error_attr (v : Value) (e : PyError)
    (h : validate v = Except.error e) : e = PyError.attributeError := by
  cases v <;>
    first
      | (rw [validate_obj_eq] at h; simp at h)
      | (simp [validate, DYSFUNCTION_PATTERNS, List.foldlM, stepPattern, count_stages,
          bind, Except.bind] at h; exact h.symm)

/-- Counterexample to C1 as stated: a run on a file parsing to a top-level
array exits with status 1, although its findings list holds no HIGH entry
(none was produced) and the run did not fail before validation — it
crashed inside it. -/
theorem c1_counterexample_validation_crash :
    ¬(exitCode (Py.main topArrayInput) = 1 ↔
      (∃ f ∈ reportedFindings (Py.main topArrayInput), f.severity = "HIGH") ∨
      failedBeforeValidation (Py.main topArrayInput) = true) := by
  decide

/-- C1 as amended: the exit status is 1 iff the reported findings contain
a HIGH-severity entry, or the run failed before validation (usage error,
missing file, missing YAML library, or parse error), or the run crashed
during validation with an uncaught `AttributeError`; in every other case
it is 0. -/
theorem c1_exit_status_law (inp : RunInput) :
    exitCode (Py.main inp) = 1 ↔
      (∃ f ∈ reportedFindings (Py.main inp), f.severity = "HIGH") ∨
      failedBeforeValidation (Py.main inp) = true ∨
      Py.main inp = RunOutcome.uncaughtCrash PyError.attributeError := by
  cases ha : inp.hasArg with
  | false => simp [Py.main, ha, exitCode, reportedFindings, failedBeforeValidation]
  | true =>
  cases hfe : inp.fileExists with
  | false => simp [Py.main, ha, hfe, exitCode, reportedFindings, failedBeforeValidation]
  | true =>
  cases hl : load_architecture inp with
  | exitMissingYaml =>
    simp [Py.main, ha, hfe, hl, exitCode, reportedFindings, failedBeforeValidation]
  | raised e =>
    rcases load_architecture_raised inp e hl with rfl | rfl | rfl <;>
      simp [Py.main, ha, hfe, hl, exitCode, reportedFindings, failedBeforeValidation]
  | ok v =>
    cases hv : validate v with
    | error e =>
      have he := validate_error_attr v e hv
      subst he
      simp [Py.main, ha, hfe, hl, hv, exitCode, reportedFindings, failedBeforeValidation]
    | ok fs =>
      by_cases hemp : fs.isEmpty
      · simp [Py.main, ha, hfe, hl, hv, hemp, exitCode, reportedFindings,
          failedBeforeValidation]
      · by_cases hhigh : (fs.filter (fun f => f.severity == "HIGH")).length > 0
        · have hex : ∃ f ∈ fs, f.severity = "HIGH" := by
            rcases List.exists_mem_of_ne_nil _ (List.length_pos.mp hhigh) with ⟨f, hf⟩
            rcases List.mem_filter.mp hf with ⟨hmem, hsev⟩
            exact ⟨f, hmem, by simpa using hsev⟩
          simp [Py.main, ha, hfe, hl, hv, hemp, hhigh, exitCode, reportedFindings,
            failedBeforeValidation, hex]
        · have hnone : ¬∃ f ∈ fs, f.severity = "HIGH" := by
            rintro ⟨f, hmem, hsev⟩
            have hfil : List.filter (fun g => g.severity == "HIGH") fs = [] :=
              List.length_eq_zero.mp (by omega)
            have hmf : f ∈ List.filter (fun g => g.severity == "HIGH") fs :=
              List.mem_filter.mpr ⟨hmem, by simpa using hsev⟩
            rw [hfil] at hmf
            simp at hmf
          simp [Py.main, ha, hfe, hl, hv, hemp, hhigh, exitCode, reportedFindings,
            failedBeforeValidation, hnone]

/-- Formalization of the claim's phrase "reported as a one-line
human-readable message": the run ends in one of the handled error exits
(a `print` of an error message — which goes to standard output — followed
by `sys.exit(1)`) rather than in an uncaught exception, which the
interpreter reports as a multi-line traceback on standard error. -/
def endsWithHandledErrorMessage : RunOutcome → Bool
  | .usageExit => true
  | .fileNotFoundExit => true
  | .yamlMissingExit => true
  | _ => false

/-- A run input whose `.json` file content parses in neither format. -/
def unparsableJsonInput : RunInput :=
  { hasArg := true, fileExists := true, suffix := ".json", hasYaml := true,
    jsonParse := none, yamlParse := none }

/-- Counterexample to C5 as stated: a `.json` file whose content fails
both parsers makes the run crash with an uncaught `json.JSONDecodeError`
(multi-line traceback on standard error), not a handled one-line message
on the error channel. -/
theorem c5_counterexample_traceback :
    Py.main unparsableJsonInput = RunOutcome.uncaughtCrash PyError.jsonDecodeError ∧
    endsWithHandledErrorMessage (Py.main unparsableJsonInput) = false ∧
    exitCode (Py.main unparsableJsonInput) = 1 ∧
    reportedFindings (Py.main unparsableJsonInput) = [] := by
  decide

/-- C5 as amended: every run whose file content fails both JSON and YAML
parsing is terminal — it exits with status 1, reports no findings and
never reaches the report stage; the failure surfaces as an uncaught
exception traceback (or, for a YAML-suffixed file without the YAML
library, the handled missing-library message), not as a one-line message
on the error channel. -/
theorem c5_unparsable_terminal (inp : RunInput)
    (ha : inp.hasArg = true) (hfe : inp.fileExists = true)
    (hj : inp.jsonParse = none) (hy : inp.yamlParse = none) :
    exitCode (Py.main inp) = 1 ∧
    reportedFindings (Py.main inp) = [] ∧
    completedReport (Py.main inp) = false := by
  have hload : load_architecture inp = LoadResult.exitMissingYaml ∨
      ∃ e, load_architecture inp = LoadResult.raised e := by
    unfold load_architecture
    rw [hj, hy]
    repeat' split
    all_goals simp_all
  rcases hload with hl | ⟨e, hl⟩ <;>
    simp [Py.main, ha, hfe, hl, exitCode, reportedFindings, completedReport]

/-- Witness for C5 (amended) at the unparsable `.json` input. -/
theorem c5_unparsable_terminal_witness :
    exitCode (Py.main unparsableJsonInput) = 1 ∧
    reportedFindings (Py.main unparsableJsonInput) = [] ∧
    completedReport (Py.main unparsableJsonInput) = false :=
  c5_unparsable_terminal unparsableJsonInput rfl rfl rfl rfl
